import Mathlib

/-!
Shallow embedding of the Horovod process-set control plane
(`horovod/common/basics.py`, class `HorovodBasics`).

The foreign engine (the dynamically loaded native library reached through
`self.MPI_LIB_CTYPES`) is modelled as a structure of response values and
response functions (`Engine`).  Each embedded Python method computes its
result from the engine's responses exactly as the Python source does, and
additionally records the observable side effects it performs, in order, as
a trace of `Action`s (foreign engine calls, `atexit.register(self.shutdown)`,
and setting the `HOROVOD_DYNAMIC_PROCESS_SETS` environment variable).

Python `ValueError` / `RuntimeError` exceptions are represented by the
error taxonomy constructors of `HvdError`; each constructor corresponds to
one exception message of the source (noted next to the constructor).
-/

namespace Horovod

/-- Errors raised by `HorovodBasics`.  Each constructor stands for a
`ValueError` / `RuntimeError` / `TypeError` raised by `basics.py`:
* `NotInitialized` — "Horovod has not been initialized; use hvd.init()."
* `DynamicModeDisabled` — "Set HOROVOD_DYNAMIC_PROCESS_SETS=1 to allow
  adding/removing process sets after Horovod initialization."
* `UnsupportedController` — "Multiple process sets are only supported with
  MPI controllers, not Gloo." and, in `init`, "Horovod has not been built
  with MPI support. ..."
* `UnknownProcessSet id` — "Unknown process set id ..." / "Tried to remove
  unknown process set id ..."
* `NotAMember id` — "Process is not part of process set ..."
* `GlobalSetImmutable` — "Attempted to remove the global process set with id 0."
* `ConsistencyError` — RuntimeError "Process set table was modified outside
  of get_process_sets()"
* `ConfigurationError msg` — ValueError about a malformed `comm` argument,
  carrying the literal message.
* `PyTypeError` — a Python-level TypeError raised by ctypes / mpi4py before
  reaching the engine (for inputs outside the documented argument shapes). -/
inductive HvdError where
  | NotInitialized
  | DynamicModeDisabled
  | UnsupportedController
  | UnknownProcessSet (id : Int)
  | NotAMember (id : Int)
  | GlobalSetImmutable
  | ConsistencyError
  | ConfigurationError (msg : String)
  | PyTypeError
  deriving DecidableEq, Repr

/-- An element of the `comm` argument of `init`: either a rank integer or an
`mpi4py.MPI.Comm` handle (modelled opaquely by a natural number tag). -/
inductive CommElem where
  | int (n : Int)
  | comm (h : Nat)
  deriving DecidableEq, Repr

/-- The `comm` argument of `init`: `None`, a single non-list value (which the
source wraps into a one-element list), or a list. -/
inductive CommArg where
  | cNone
  | single (c : CommElem)
  | list (cs : List CommElem)
  deriving DecidableEq, Repr

/-- The `process_sets` argument of `init`: `None`, a list of rank lists, or a
string (the source treats a string whose `lower()` is `"dynamic"` as the
dynamic-mode marker). -/
inductive ProcessSetsArg where
  | psNone
  | psSets (pss : List (List Int))
  | psStr (s : String)
  deriving DecidableEq, Repr

/-- Foreign calls into the native engine, with the arguments marshalled by
the Python layer (ctypes int arrays become `List Int` / `List Nat`). -/
inductive EngineCall where
  | init (commRanks : List Int) (nranks : Nat)
      (psRanks : List Int) (psSizes : List Nat) (nps : Nat)
  | initComm (h : Nat)
  | initMultiComm (hs : List Nat) (n : Nat)
  | mpiBuiltProbe
  | shutdownCall
  | addProcessSet (ranks : List Int) (nranks : Nat)
  | removeProcessSet (id : Int)
  deriving DecidableEq, Repr

/-- Observable side effects of the Python layer, in program order. -/
inductive Action where
  | engine (c : EngineCall)
  | atexitRegisterShutdown
  | setEnvDynamicProcessSets
  deriving DecidableEq, Repr

/-- The engine capability interface (`self.MPI_LIB_CTYPES`): a response for
each foreign symbol the embedded methods call.  Out-parameter arrays are
modelled by functions from the allocated array length to the filled
contents. -/
structure Engine where
  mpi_built : Bool
  horovod_size : Int
  horovod_local_size : Int
  horovod_cross_size : Int
  horovod_rank : Int
  horovod_local_rank : Int
  horovod_cross_rank : Int
  horovod_add_process_set : List Int → Nat → Int
  horovod_remove_process_set : Int → Int
  horovod_process_set_rank : Int → Int
  horovod_process_set_size : Int → Int
  horovod_get_number_of_process_sets : Nat
  horovod_get_process_set_ids : Nat → List Int
  horovod_get_process_set_size : Int → Int
  horovod_get_process_set_ranks : Int → Nat → Int × List Int

/-- `True` exactly for rank-integer elements (`isinstance(rk, int)`). -/
def isIntElem : CommElem → Bool
  | .int _ => true
  | .comm _ => false

/-- `True` exactly for communicator handles (`isinstance(c, MPI.Comm)`). -/
def isCommElem : CommElem → Bool
  | .int _ => false
  | .comm _ => true

/-- The rank integers of an all-integer `comm` list (the ctypes array
`(c_int * comm_size)(*comm)`). -/
def commInts (cs : List CommElem) : List Int :=
  cs.filterMap fun c => match c with
    | .int n => some n
    | .comm _ => none

/-- The handles of an all-handle `comm` list (the `comm_objs` array). -/
def commHandles (cs : List CommElem) : List Nat :=
  cs.filterMap fun c => match c with
    | .int _ => none
    | .comm h => some h

/-- Lines 57-60 of `basics.py`: `None` becomes `[]`, a non-list value is
wrapped into a one-element list, a list is used as is. -/
def normalizeComm : CommArg → List CommElem
  | .cNone => []
  | .single c => [c]
  | .list cs => cs

/-- The Python `str.lower()` used on line 63 of `basics.py`, modelled
characterwise (process-set mode markers are ASCII). -/
def pyLower (s : String) : String :=
  String.mk (s.data.map Char.toLower)

/-- The literal message of the ValueError raised for a `comm` list whose
elements are neither all rank integers nor all MPI communicators. -/
def invalidCommTypeMsg : String :=
  "Invalid type of argument comm. Expected list of rank integers, mpi4py.MPI.Comm object or list of mpi4py.MPI.Comm objects."

/-- Lines 67-107 of `basics.py` (`HorovodBasics.init` after the argument
normalization): flatten the process sets into parallel arrays, register the
exit hook, then dispatch on the shape of `comm`.

* `comm` empty or all integers: one `horovod_init` call carrying the comm
  ranks and the flattened process-set arrays.
* otherwise `self.mpi_built()` is probed; if MPI support is not built the
  ValueError "Horovod has not been built with MPI support. ..." is raised
  (taxonomy: `UnsupportedController`).
* otherwise, if not every element is an MPI communicator, the ValueError
  `invalidCommTypeMsg` is raised (taxonomy: `ConfigurationError`).
* a single communicator: the source calls
  `MPI_Comm.from_address(MPI._addressof(comm))` on the *list* `comm`
  (not `comm[0]`), and `mpi4py`'s `_addressof` raises TypeError on a list,
  before `horovod_init_comm` is reached; modelled as `PyTypeError`.
* several communicators: one `horovod_init_multi_comm` call. -/
def initCore (e : Engine) (comm : List CommElem) (pss : List (List Int))
    (pre : List Action) : List Action × Except HvdError Unit :=
  let process_set_sizes : List Nat := pss.map List.length
  let process_set_ranks : List Int := pss.flatten
  let tr := pre ++ [Action.atexitRegisterShutdown]
  if comm.length == 0 || comm.all isIntElem then
    (tr ++ [Action.engine (EngineCall.init (commInts comm) comm.length
        process_set_ranks process_set_sizes process_set_sizes.length)],
     Except.ok ())
  else if !e.mpi_built then
    (tr ++ [Action.engine EngineCall.mpiBuiltProbe],
     Except.error HvdError.UnsupportedController)
  else if !comm.all isCommElem then
    (tr ++ [Action.engine EngineCall.mpiBuiltProbe],
     Except.error (HvdError.ConfigurationError invalidCommTypeMsg))
  else
    match comm with
    | [_] =>
      (tr ++ [Action.engine EngineCall.mpiBuiltProbe],
       Except.error HvdError.PyTypeError)
    | cs =>
      (tr ++ [Action.engine EngineCall.mpiBuiltProbe,
              Action.engine (EngineCall.initMultiComm (commHandles cs) cs.length)],
       Except.ok ())

/-- `HorovodBasics.init` (lines 35-107 of `basics.py`).  The argument
normalization of lines 57-65 happens first: `process_sets=None` becomes the
empty list; a string whose `lower()` equals `"dynamic"` becomes the empty
list and sets the `HOROVOD_DYNAMIC_PROCESS_SETS=1` environment variable
(before anything else, in particular before any engine call).  Any other
string falls through to the flattening of lines 67-70, where building the
ctypes `c_int` array from the string's characters raises TypeError — before
`atexit.register` on line 75 runs, so no action is performed at all. -/
def init (e : Engine) (comm : CommArg) (process_sets : ProcessSetsArg) :
    List Action × Except HvdError Unit :=
  match process_sets with
  | .psNone => initCore e (normalizeComm comm) [] []
  | .psSets pss => initCore e (normalizeComm comm) pss []
  | .psStr s =>
    if pyLower s == "dynamic" then
      initCore e (normalizeComm comm) [] [Action.setEnvDynamicProcessSets]
    else
      ([], Except.error HvdError.PyTypeError)

/-- `HorovodBasics.shutdown`: one engine call, no translation. -/
def shutdown : List Action :=
  [Action.engine EngineCall.shutdownCall]

/-- `HorovodBasics.size` (lines 144-154). -/
def size (e : Engine) : Except HvdError Int :=
  if e.horovod_size = -1 then Except.error HvdError.NotInitialized
  else Except.ok e.horovod_size

/-- `HorovodBasics.local_size` (lines 156-167). -/
def local_size (e : Engine) : Except HvdError Int :=
  if e.horovod_local_size = -1 then Except.error HvdError.NotInitialized
  else Except.ok e.horovod_local_size

/-- `HorovodBasics.cross_size` (lines 169-182). -/
def cross_size (e : Engine) : Except HvdError Int :=
  if e.horovod_cross_size = -1 then Except.error HvdError.NotInitialized
  else Except.ok e.horovod_cross_size

/-- `HorovodBasics.rank` (lines 184-194). -/
def rank (e : Engine) : Except HvdError Int :=
  if e.horovod_rank = -1 then Except.error HvdError.NotInitialized
  else Except.ok e.horovod_rank

/-- `HorovodBasics.local_rank` (lines 196-208). -/
def local_rank (e : Engine) : Except HvdError Int :=
  if e.horovod_local_rank = -1 then Except.error HvdError.NotInitialized
  else Except.ok e.horovod_local_rank

/-- `HorovodBasics.cross_rank` (lines 210-223). -/
def cross_rank (e : Engine) : Except HvdError Int :=
  if e.horovod_cross_rank = -1 then Except.error HvdError.NotInitialized
  else Except.ok e.horovod_cross_rank

/-- `HorovodBasics.add_process_set` (lines 334-351).  The rank list is
passed to `horovod_add_process_set` exactly as given, together with its
length; the returned sentinel is translated: -1 ↦ `NotInitialized`,
-2 ↦ `DynamicModeDisabled`, -10 ↦ `UnsupportedController`, anything else is
returned unchanged. -/
def add_process_set (e : Engine) (ranks : List Int) :
    List Action × Except HvdError Int :=
  let nrank := ranks.length
  let result := e.horovod_add_process_set ranks nrank
  let tr := [Action.engine (EngineCall.addProcessSet ranks nrank)]
  if result = -1 then (tr, Except.error HvdError.NotInitialized)
  else if result = -2 then (tr, Except.error HvdError.DynamicModeDisabled)
  else if result = -10 then (tr, Except.error HvdError.UnsupportedController)
  else (tr, Except.ok result)

/-- `HorovodBasics.remove_process_set` (lines 353-372).  Id 0 is rejected
with `GlobalSetImmutable` before any engine call; otherwise the engine is
called and its sentinel translated: -1 ↦ `NotInitialized`,
-2 ↦ `DynamicModeDisabled`, -3 ↦ `UnknownProcessSet`,
-10 ↦ `UnsupportedController`. -/
def remove_process_set (e : Engine) (process_set_id : Int) :
    List Action × Except HvdError Int :=
  if process_set_id = 0 then
    ([], Except.error HvdError.GlobalSetImmutable)
  else
    let result := e.horovod_remove_process_set process_set_id
    let tr := [Action.engine (EngineCall.removeProcessSet process_set_id)]
    if result = -1 then (tr, Except.error HvdError.NotInitialized)
    else if result = -2 then (tr, Except.error HvdError.DynamicModeDisabled)
    else if result = -3 then
      (tr, Except.error (HvdError.UnknownProcessSet process_set_id))
    else if result = -10 then (tr, Except.error HvdError.UnsupportedController)
    else (tr, Except.ok result)

/-- `HorovodBasics.process_set_rank` (lines 374-387). -/
def process_set_rank (e : Engine) (process_set_id : Int) : Except HvdError Int :=
  let result := e.horovod_process_set_rank process_set_id
  if result = -1 then Except.error HvdError.NotInitialized
  else if result = -2 then Except.error (HvdError.NotAMember process_set_id)
  else if result = -3 then Except.error (HvdError.UnknownProcessSet process_set_id)
  else if result = -10 then Except.error HvdError.UnsupportedController
  else Except.ok result

/-- `HorovodBasics.process_set_size` (lines 389-402). -/
def process_set_size (e : Engine) (process_set_id : Int) : Except HvdError Int :=
  let result := e.horovod_process_set_size process_set_id
  if result = -1 then Except.error HvdError.NotInitialized
  else if result = -2 then Except.error (HvdError.NotAMember process_set_id)
  else if result = -3 then Except.error (HvdError.UnknownProcessSet process_set_id)
  else if result = -10 then Except.error HvdError.UnsupportedController
  else Except.ok result

/-- The per-id loop of `HorovodBasics.get_process_sets` (lines 410-418):
for each fetched id, fetch its size (negative ⇒ RuntimeError), allocate a
ctypes array of that size, fetch the ranks (negative result ⇒ RuntimeError),
and append the entry to the result.  The Python dict is modelled by the
association list in insertion order (the engine's ids are unique, and the
per-id computation is deterministic, so the dict holds the same entries). -/
def getProcessSetsLoop (e : Engine) :
    List Int → List (Int × List Int) → Except HvdError (List (Int × List Int))
  | [], ret => Except.ok ret
  | ps_id :: rest, ret =>
    let ps_size := e.horovod_get_process_set_size ps_id
    if ps_size < 0 then Except.error HvdError.ConsistencyError
    else
      let res_ranks := e.horovod_get_process_set_ranks ps_id ps_size.toNat
      if res_ranks.1 < 0 then Except.error HvdError.ConsistencyError
      else getProcessSetsLoop e rest (ret ++ [(ps_id, res_ranks.2)])

/-- The id list fetched by `get_process_sets` (lines 406-408): an array of
length `horovod_get_number_of_process_sets()` filled by
`horovod_get_process_set_ids`. -/
def fetchedIds (e : Engine) : List Int :=
  e.horovod_get_process_set_ids e.horovod_get_number_of_process_sets

/-- `HorovodBasics.get_process_sets` (lines 404-419). -/
def get_process_sets (e : Engine) :
    Except HvdError (List (Int × List Int)) :=
  getProcessSetsLoop e (fetchedIds e) []

/-- The membership list a successful `get_process_sets` reports for `id`. -/
def fetchedMembers (e : Engine) (id : Int) : List Int :=
  (e.horovod_get_process_set_ranks id
    (e.horovod_get_process_set_size id).toNat).2

/-- `id` is an id for which the three-step read of `get_process_sets`
observes an inconsistency: a negative size, or a negative ranks-fetch
result. -/
def badFetch (e : Engine) (id : Int) : Prop :=
  e.horovod_get_process_set_size id < 0 ∨
    (e.horovod_get_process_set_ranks id
      (e.horovod_get_process_set_size id).toNat).1 < 0

instance (e : Engine) (id : Int) : Decidable (badFetch e id) := by
  unfold badFetch; infer_instance

/-- Two rank lists with equal membership as unordered sets. -/
def sameMembers (a b : List Int) : Bool :=
  a.all (fun r => b.contains r) && b.all (fun r => a.contains r)

/-- Modelled from the spec: the engine-side duplicate dropping performed
during initial process-set registration (the native `ProcessSetTable` code
is not under `src/`).  "entries whose membership set duplicates an earlier
entry are dropped"; the global membership counts as an earlier entry. -/
def dropDuplicateSets (seen : List (List Int)) : List (List Int) → List (List Int)
  | [] => []
  | ps :: rest =>
    if seen.any (fun q => sameMembers ps q) then dropDuplicateSets seen rest
    else ps :: dropDuplicateSets (ps :: seen) rest

/-- Modelled from the spec: the registry seeded by the initialization
handshake — id 0 is the global membership, and the surviving declared
entries receive ids 1, 2, ... in declaration order. -/
def engineInitialRegistry (globalRanks : List Int) (pss : List (List Int)) :
    List (Int × List Int) :=
  (0, globalRanks) ::
    ((dropDuplicateSets [globalRanks] pss).enum.map
      fun p => ((p.1 : Int) + 1, p.2))

/-- A sample engine: 3 workers, MPI controller available. -/
def egEngine : Engine where
  mpi_built := true
  horovod_size := 3
  horovod_local_size := 3
  horovod_cross_size := 1
  horovod_rank := 0
  horovod_local_rank := 0
  horovod_cross_rank := 0
  horovod_add_process_set := fun _ _ => 1
  horovod_remove_process_set := fun _ => 0
  horovod_process_set_rank := fun _ => 0
  horovod_process_set_size := fun _ => 3
  horovod_get_number_of_process_sets := 1
  horovod_get_process_set_ids := fun n => (List.range n).map Int.ofNat
  horovod_get_process_set_size := fun _ => 3
  horovod_get_process_set_ranks := fun _ sz => (0, (List.range sz).map Int.ofNat)

/-- A sample engine without native MPI controller support. -/
def egNoMpi : Engine :=
  { egEngine with mpi_built := false }

/-- A sample engine whose `horovod_add_process_set` reports sentinel -2
(dynamic mode disabled). -/
def egDynOff : Engine :=
  { egEngine with horovod_add_process_set := fun _ _ => -2 }

/-- A sample engine whose `horovod_add_process_set` reports -3, a sentinel
the Python layer does not translate. -/
def egNeg3 : Engine :=
  { egEngine with horovod_add_process_set := fun _ _ => -3 }

/-- A sample engine that has not been initialized: every unscoped query
reports the -1 sentinel. -/
def egNotInit : Engine :=
  { egEngine with
      horovod_size := -1, horovod_local_size := -1, horovod_cross_size := -1,
      horovod_rank := -1, horovod_local_rank := -1, horovod_cross_rank := -1,
      horovod_process_set_rank := fun _ => -1,
      horovod_process_set_size := fun _ => -1 }

/-- A sample engine whose process-set table read observes a negative size
for id 0 (concurrent mutation during the three-step read). -/
def egBadTable : Engine :=
  { egEngine with horovod_get_process_set_size := fun _ => -1 }

/-! ## Helper lemmas -/

/-- Translation behaviour of the single-sentinel pattern shared by the six
unscoped queries: the -1 sentinel maps to `NotInitialized` and every other
value passes through unchanged. -/
theorem sentinel1_cases (v : Int) :
    ((if v = -1 then (Except.error HvdError.NotInitialized : Except HvdError Int)
      else Except.ok v) = Except.error HvdError.NotInitialized ↔ v = -1) ∧
    (v ≠ -1 →
      (if v = -1 then (Except.error HvdError.NotInitialized : Except HvdError Int)
       else Except.ok v) = Except.ok v) := by
  by_cases h : v = -1 <;> simp [h]

/-- Translation behaviour of the four-sentinel pattern shared by
`process_set_rank` and `process_set_size`. -/
theorem sentinel4_cases (v id : Int) :
    ((if v = -1 then (Except.error HvdError.NotInitialized : Except HvdError Int)
      else if v = -2 then Except.error (HvdError.NotAMember id)
      else if v = -3 then Except.error (HvdError.UnknownProcessSet id)
      else if v = -10 then Except.error HvdError.UnsupportedController
      else Except.ok v) = Except.error HvdError.NotInitialized ↔ v = -1) ∧
    ((if v = -1 then (Except.error HvdError.NotInitialized : Except HvdError Int)
      else if v = -2 then Except.error (HvdError.NotAMember id)
      else if v = -3 then Except.error (HvdError.UnknownProcessSet id)
      else if v = -10 then Except.error HvdError.UnsupportedController
      else Except.ok v) = Except.error (HvdError.NotAMember id) ↔ v = -2) ∧
    ((if v = -1 then (Except.error HvdError.NotInitialized : Except HvdError Int)
      else if v = -2 then Except.error (HvdError.NotAMember id)
      else if v = -3 then Except.error (HvdError.UnknownProcessSet id)
      else if v = -10 then Except.error HvdError.UnsupportedController
      else Except.ok v) = Except.error (HvdError.UnknownProcessSet id) ↔ v = -3) ∧
    ((if v = -1 then (Except.error HvdError.NotInitialized : Except HvdError Int)
      else if v = -2 then Except.error (HvdError.NotAMember id)
      else if v = -3 then Except.error (HvdError.UnknownProcessSet id)
      else if v = -10 then Except.error HvdError.UnsupportedController
      else Except.ok v) = Except.error HvdError.UnsupportedController ↔ v = -10) ∧
    (v ≠ -1 → v ≠ -2 → v ≠ -3 → v ≠ -10 →
      (if v = -1 then (Except.error HvdError.NotInitialized : Except HvdError Int)
      else if v = -2 then Except.error (HvdError.NotAMember id)
      else if v = -3 then Except.error (HvdError.UnknownProcessSet id)
      else if v = -10 then Except.error HvdError.UnsupportedController
      else Except.ok v) = Except.ok v) := by
  by_cases h1 : v = -1 <;> by_cases h2 : v = -2 <;> by_cases h3 : v = -3 <;>
    by_cases h4 : v = -10 <;> simp_all

/-- One step of the `get_process_sets` loop, with the let-bindings spelled
out. -/
theorem gps_loop_step (e : Engine) (x : Int) (rest : List Int)
    (acc : List (Int × List Int)) :
    getProcessSetsLoop e (x :: rest) acc =
      if e.horovod_get_process_set_size x < 0 then
        Except.error HvdError.ConsistencyError
      else if (e.horovod_get_process_set_ranks x
          (e.horovod_get_process_set_size x).toNat).1 < 0 then
        Except.error HvdError.ConsistencyError
      else getProcessSetsLoop e rest
        (acc ++ [(x, (e.horovod_get_process_set_ranks x
          (e.horovod_get_process_set_size x).toNat).2)]) := rfl

/-- If any id in the list is observed inconsistently, the loop raises
`ConsistencyError`, whatever was accumulated so far. -/
theorem gps_loop_error (e : Engine) (ids : List Int)
    (acc : List (Int × List Int)) (h : ∃ id ∈ ids, badFetch e id) :
    getProcessSetsLoop e ids acc = Except.error HvdError.ConsistencyError := by
  induction ids generalizing acc with
  | nil => simp at h
  | cons x rest ih =>
    rw [gps_loop_step]
    by_cases h1 : e.horovod_get_process_set_size x < 0
    · rw [if_pos h1]
    · rw [if_neg h1]
      by_cases h2 : (e.horovod_get_process_set_ranks x
          (e.horovod_get_process_set_size x).toNat).1 < 0
      · rw [if_pos h2]
      · rw [if_neg h2]
        apply ih
        rcases h with ⟨id, hmem, hbad⟩
        rcases List.mem_cons.mp hmem with heq | hmem2
        · subst heq
          exact (hbad.elim h1 h2).elim
        · exact ⟨id, hmem2, hbad⟩

/-- If every id in the list is observed consistently, the loop returns the
accumulator extended with one entry per id, in order. -/
theorem gps_loop_ok (e : Engine) (ids : List Int)
    (acc : List (Int × List Int)) (h : ∀ id ∈ ids, ¬ badFetch e id) :
    getProcessSetsLoop e ids acc
      = Except.ok (acc ++ ids.map fun id => (id, fetchedMembers e id)) := by
  induction ids generalizing acc with
  | nil => simp [getProcessSetsLoop]
  | cons x rest ih =>
    have hx := h x (List.mem_cons_self x rest)
    have h1 : ¬ e.horovod_get_process_set_size x < 0 :=
      fun hc => hx (Or.inl hc)
    have h2 : ¬ (e.horovod_get_process_set_ranks x
        (e.horovod_get_process_set_size x).toNat).1 < 0 :=
      fun hc => hx (Or.inr hc)
    rw [gps_loop_step, if_neg h1, if_neg h2,
      ih _ (fun id hid => h id (List.mem_cons_of_mem _ hid))]
    simp [fetchedMembers]

/-- A communicator-handle element is not a rank integer. -/
theorem not_int_of_comm (c : CommElem) (h : isCommElem c = true) :
    isIntElem c = false := by
  cases c <;> simp_all [isIntElem, isCommElem]

/-- A rank-integer element is not a communicator handle. -/
theorem not_comm_of_int (c : CommElem) (h : isIntElem c = true) :
    isCommElem c = false := by
  cases c <;> simp_all [isIntElem, isCommElem]

/-- Whatever the `comm` argument, `initCore` performs the actions `pre`,
then registers the exit-time shutdown hook, then everything else: the trace
is `pre ++ atexitRegisterShutdown :: rest` for some `rest`. -/
theorem initCore_registers (e : Engine) (comm : List CommElem)
    (pss : List (List Int)) (pre : List Action) :
    ∃ rest, (initCore e comm pss pre).1
      = pre ++ Action.atexitRegisterShutdown :: rest := by
  by_cases hc : (comm.length == 0 || comm.all isIntElem) = true
  · exact ⟨[Action.engine (EngineCall.init (commInts comm) comm.length
      pss.flatten (pss.map List.length) (pss.map List.length).length)],
      by simp [initCore, hc]⟩
  · by_cases hm : e.mpi_built
    · by_cases ha : comm.all isCommElem
      · match comm with
        | [] =>
          exact ⟨[Action.engine (EngineCall.init (commInts []) 0
            pss.flatten (pss.map List.length) (pss.map List.length).length)],
            by simp [initCore]⟩
        | [c] =>
          have hci : isCommElem c = true := by simpa using ha
          have hii : isIntElem c = false := not_int_of_comm c hci
          exact ⟨[Action.engine EngineCall.mpiBuiltProbe],
            by simp [initCore, hii, hm, ha]⟩
        | c1 :: c2 :: cs =>
          have hc1 : isCommElem c1 = true := by
            simp only [List.all_cons, Bool.and_eq_true] at ha
            exact ha.1
          have hii : isIntElem c1 = false := not_int_of_comm c1 hc1
          exact ⟨[Action.engine EngineCall.mpiBuiltProbe,
            Action.engine (EngineCall.initMultiComm (commHandles (c1 :: c2 :: cs))
              (c1 :: c2 :: cs).length)],
            by simp [initCore, hii, hm, ha]⟩
      · exact ⟨[Action.engine EngineCall.mpiBuiltProbe],
          by simp [initCore, hc, hm, ha]⟩
    · exact ⟨[Action.engine EngineCall.mpiBuiltProbe],
        by simp [initCore, hc, hm]⟩

/-- With an empty process-set list, every `horovod_init` handshake call
that `initCore` performs carries empty process-set arrays and a zero set
count, and the trace starts with `pre` followed by the exit-hook
registration. -/
theorem initCore_dynamic_zero_sets (e : Engine) (comm : List CommElem)
    (pre : List Action) :
    ∃ rest, (initCore e comm [] pre).1
        = pre ++ Action.atexitRegisterShutdown :: rest ∧
      ∀ cr nr pr ps np,
        Action.engine (EngineCall.init cr nr pr ps np) ∈ rest →
          pr = [] ∧ ps = [] ∧ np = 0 := by
  by_cases hc : (comm.length == 0 || comm.all isIntElem) = true
  · refine ⟨[Action.engine (EngineCall.init (commInts comm) comm.length [] [] 0)],
      by simp [initCore, hc], ?_⟩
    intro cr nr pr ps np hmem
    rw [List.mem_singleton] at hmem
    injection hmem with hmem
    injection hmem with h1 h2 h3 h4 h5
    exact ⟨h3, h4, h5⟩
  · by_cases hm : e.mpi_built
    · by_cases ha : comm.all isCommElem
      · match comm with
        | [] =>
          refine ⟨[Action.engine (EngineCall.init (commInts []) 0 [] [] 0)],
            by simp [initCore], ?_⟩
          intro cr nr pr ps np hmem
          rw [List.mem_singleton] at hmem
          injection hmem with hmem
          injection hmem with h1 h2 h3 h4 h5
          exact ⟨h3, h4, h5⟩
        | [c] =>
          have hci : isCommElem c = true := by simpa using ha
          have hii : isIntElem c = false := not_int_of_comm c hci
          refine ⟨[Action.engine EngineCall.mpiBuiltProbe],
            by simp [initCore, hii, hm, ha], ?_⟩
          intro cr nr pr ps np hmem
          simp at hmem
        | c1 :: c2 :: cs =>
          have hc1 : isCommElem c1 = true := by
            simp only [List.all_cons, Bool.and_eq_true] at ha
            exact ha.1
          have hii : isIntElem c1 = false := not_int_of_comm c1 hc1
          refine ⟨[Action.engine EngineCall.mpiBuiltProbe,
            Action.engine (EngineCall.initMultiComm (commHandles (c1 :: c2 :: cs))
              (c1 :: c2 :: cs).length)],
            by simp [initCore, hii, hm, ha], ?_⟩
          intro cr nr pr ps np hmem
          simp at hmem
      · refine ⟨[Action.engine EngineCall.mpiBuiltProbe],
          by simp [initCore, hc, hm, ha], ?_⟩
        intro cr nr pr ps np hmem
        simp at hmem
    · refine ⟨[Action.engine EngineCall.mpiBuiltProbe],
        by simp [initCore, hc, hm], ?_⟩
      intro cr nr pr ps np hmem
      simp at hmem

/-! ## Claim theorems -/

/-- Claim C2: `add_process_set` sends the rank list to the engine exactly as
given (its one engine call carries the list unchanged, duplicates included,
together with its length), raises `NotInitialized` exactly when the engine
returns -1, `DynamicModeDisabled` exactly when it returns -2,
`UnsupportedController` exactly when it returns -10, and otherwise returns
the engine's result as the new process-set id. -/
theorem add_process_set_spec (e : Engine) (ranks : List Int) :
    (add_process_set e ranks).1
      = [Action.engine (EngineCall.addProcessSet ranks ranks.length)] ∧
    ((add_process_set e ranks).2 = Except.error HvdError.NotInitialized ↔
      e.horovod_add_process_set ranks ranks.length = -1) ∧
    ((add_process_set e ranks).2 = Except.error HvdError.DynamicModeDisabled ↔
      e.horovod_add_process_set ranks ranks.length = -2) ∧
    ((add_process_set e ranks).2 = Except.error HvdError.UnsupportedController ↔
      e.horovod_add_process_set ranks ranks.length = -10) ∧
    (e.horovod_add_process_set ranks ranks.length ≠ -1 →
      e.horovod_add_process_set ranks ranks.length ≠ -2 →
      e.horovod_add_process_set ranks ranks.length ≠ -10 →
      (add_process_set e ranks).2
        = Except.ok (e.horovod_add_process_set ranks ranks.length)) := by
  unfold add_process_set
  by_cases h1 : e.horovod_add_process_set ranks ranks.length = -1 <;>
    by_cases h2 : e.horovod_add_process_set ranks ranks.length = -2 <;>
    by_cases h3 : e.horovod_add_process_set ranks ranks.length = -10 <;>
    simp_all

/-- Witness for C2: an engine reporting sentinel -2 makes `add_process_set`
fail with `DynamicModeDisabled` (on a rank list with a duplicate rank). -/
theorem add_process_set_spec_witness :
    (add_process_set egDynOff [0, 0]).2 = Except.error HvdError.DynamicModeDisabled :=
  (add_process_set_spec egDynOff [0, 0]).2.2.1.mpr rfl

/-- Claim C3: `remove_process_set 0` always fails with `GlobalSetImmutable`,
for every engine state, with an empty action trace (no engine call, hence a
registry left unchanged). -/
theorem remove_process_set_zero_immutable (e : Engine) :
    remove_process_set e 0 = ([], Except.error HvdError.GlobalSetImmutable) := by
  simp [remove_process_set]

/-- Witness for C3: removing process set 0 on the sample engine fails with
`GlobalSetImmutable` and performs no action. -/
theorem remove_process_set_zero_immutable_witness :
    remove_process_set egEngine 0
      = ([], Except.error HvdError.GlobalSetImmutable) :=
  remove_process_set_zero_immutable egEngine

/-- Claim C4: `process_set_rank` and `process_set_size` raise
`NotInitialized` exactly when the engine returns -1, `NotAMember` exactly
when it returns -2, `UnknownProcessSet` exactly when it returns -3,
`UnsupportedController` exactly when it returns -10, and otherwise return
the engine's value unchanged. -/
theorem process_set_rank_size_sentinels (e : Engine) (id : Int) :
    (((process_set_rank e id = Except.error HvdError.NotInitialized ↔
        e.horovod_process_set_rank id = -1) ∧
      (process_set_rank e id = Except.error (HvdError.NotAMember id) ↔
        e.horovod_process_set_rank id = -2) ∧
      (process_set_rank e id = Except.error (HvdError.UnknownProcessSet id) ↔
        e.horovod_process_set_rank id = -3) ∧
      (process_set_rank e id = Except.error HvdError.UnsupportedController ↔
        e.horovod_process_set_rank id = -10) ∧
      (e.horovod_process_set_rank id ≠ -1 → e.horovod_process_set_rank id ≠ -2 →
        e.horovod_process_set_rank id ≠ -3 → e.horovod_process_set_rank id ≠ -10 →
        process_set_rank e id = Except.ok (e.horovod_process_set_rank id)))) ∧
    (((process_set_size e id = Except.error HvdError.NotInitialized ↔
        e.horovod_process_set_size id = -1) ∧
      (process_set_size e id = Except.error (HvdError.NotAMember id) ↔
        e.horovod_process_set_size id = -2) ∧
      (process_set_size e id = Except.error (HvdError.UnknownProcessSet id) ↔
        e.horovod_process_set_size id = -3) ∧
      (process_set_size e id = Except.error HvdError.UnsupportedController ↔
        e.horovod_process_set_size id = -10) ∧
      (e.horovod_process_set_size id ≠ -1 → e.horovod_process_set_size id ≠ -2 →
        e.horovod_process_set_size id ≠ -3 → e.horovod_process_set_size id ≠ -10 →
        process_set_size e id = Except.ok (e.horovod_process_set_size id)))) :=
  ⟨sentinel4_cases (e.horovod_process_set_rank id) id,
   sentinel4_cases (e.horovod_process_set_size id) id⟩

/-- Witness for C4: on an uninitialized engine, `process_set_rank 1` fails
with `NotInitialized`. -/
theorem process_set_rank_size_sentinels_witness :
    process_set_rank egNotInit 1 = Except.error HvdError.NotInitialized :=
  (process_set_rank_size_sentinels egNotInit 1).1.1.mpr rfl

/-- Claim C5: each of the six unscoped queries `size`, `local_size`,
`cross_size`, `rank`, `local_rank`, `cross_rank` raises `NotInitialized`
exactly when the engine reports its -1 sentinel, and otherwise returns the
engine's integer value unchanged. -/
theorem unscoped_queries_not_initialized (e : Engine) :
    ((size e = Except.error HvdError.NotInitialized ↔ e.horovod_size = -1) ∧
      (e.horovod_size ≠ -1 → size e = Except.ok e.horovod_size)) ∧
    ((local_size e = Except.error HvdError.NotInitialized ↔ e.horovod_local_size = -1) ∧
      (e.horovod_local_size ≠ -1 → local_size e = Except.ok e.horovod_local_size)) ∧
    ((cross_size e = Except.error HvdError.NotInitialized ↔ e.horovod_cross_size = -1) ∧
      (e.horovod_cross_size ≠ -1 → cross_size e = Except.ok e.horovod_cross_size)) ∧
    ((rank e = Except.error HvdError.NotInitialized ↔ e.horovod_rank = -1) ∧
      (e.horovod_rank ≠ -1 → rank e = Except.ok e.horovod_rank)) ∧
    ((local_rank e = Except.error HvdError.NotInitialized ↔ e.horovod_local_rank = -1) ∧
      (e.horovod_local_rank ≠ -1 → local_rank e = Except.ok e.horovod_local_rank)) ∧
    ((cross_rank e = Except.error HvdError.NotInitialized ↔ e.horovod_cross_rank = -1) ∧
      (e.horovod_cross_rank ≠ -1 → cross_rank e = Except.ok e.horovod_cross_rank)) :=
  ⟨sentinel1_cases e.horovod_size, sentinel1_cases e.horovod_local_size,
   sentinel1_cases e.horovod_cross_size, sentinel1_cases e.horovod_rank,
   sentinel1_cases e.horovod_local_rank, sentinel1_cases e.horovod_cross_rank⟩

/-- Witness for C5: on an uninitialized engine, `size` fails with
`NotInitialized`; on an initialized 3-worker engine it returns 3. -/
theorem unscoped_queries_not_initialized_witness :
    size egNotInit = Except.error HvdError.NotInitialized ∧
      size egEngine = Except.ok 3 :=
  ⟨(unscoped_queries_not_initialized egNotInit).1.1.mpr rfl,
   (unscoped_queries_not_initialized egEngine).1.2 (by decide)⟩

/-- Claim C10: when the engine's `horovod_add_process_set` returns any value
outside the three translated sentinels -1, -2, -10 — in particular another
negative sentinel such as -3 — `add_process_set` returns that value to the
caller unchanged as an (alleged) process-set id, raising no error. -/
theorem add_process_set_passthrough (e : Engine) (ranks : List Int)
    (h1 : e.horovod_add_process_set ranks ranks.length ≠ -1)
    (h2 : e.horovod_add_process_set ranks ranks.length ≠ -2)
    (h3 : e.horovod_add_process_set ranks ranks.length ≠ -10) :
    (add_process_set e ranks).2
      = Except.ok (e.horovod_add_process_set ranks ranks.length) := by
  simp [add_process_set, h1, h2, h3]

/-- Witness for C10: an engine reporting -3 makes `add_process_set` return
`-3` as if it were a valid id. -/
theorem add_process_set_passthrough_witness :
    (add_process_set egNeg3 [0, 1]).2 = Except.ok (-3) :=
  add_process_set_passthrough egNeg3 [0, 1] (by decide) (by decide) (by decide)

/-- Claim C8: during the three-step read of `get_process_sets`, if the
engine reports a negative size or a negative ranks-fetch result for any id
in the fetched id list, the call raises `ConsistencyError` (no partial
dictionary is returned); otherwise it returns the mapping from each fetched
id, in order, to its full membership list. -/
theorem get_process_sets_consistency (e : Engine) :
    ((∃ id ∈ fetchedIds e, badFetch e id) →
      get_process_sets e = Except.error HvdError.ConsistencyError) ∧
    ((∀ id ∈ fetchedIds e, ¬ badFetch e id) →
      get_process_sets e
        = Except.ok ((fetchedIds e).map fun id => (id, fetchedMembers e id))) := by
  constructor
  · intro h
    exact gps_loop_error e (fetchedIds e) [] h
  · intro h
    simpa using gps_loop_ok e (fetchedIds e) [] h

/-- Witness for C8: an engine whose table read observes a negative size
raises `ConsistencyError`; a consistent 3-worker engine returns its global
set. -/
theorem get_process_sets_consistency_witness :
    get_process_sets egBadTable = Except.error HvdError.ConsistencyError ∧
      get_process_sets egEngine = Except.ok [(0, [0, 1, 2])] := by
  constructor
  · exact (get_process_sets_consistency egBadTable).1 ⟨0, by decide, by decide⟩
  · have h := (get_process_sets_consistency egEngine).2 (by decide)
    simpa using h

/-- Claim C9: every call to `init` on an argument of the documented shapes
registers the exit-time shutdown hook (`atexit.register(self.shutdown)`),
and everything the call performs before that registration is at most
setting the dynamic-mode environment variable — in particular no engine
call precedes it, so the hook is armed even when `init` subsequently
fails, and independently of any later explicit `shutdown`. -/
theorem init_registers_exit_shutdown (e : Engine) (comm : CommArg)
    (pss : ProcessSetsArg)
    (hps : ∀ s, pss = ProcessSetsArg.psStr s → pyLower s = "dynamic") :
    ∃ pre rest, (init e comm pss).1
        = pre ++ Action.atexitRegisterShutdown :: rest ∧
      ∀ a ∈ pre, a = Action.setEnvDynamicProcessSets := by
  cases pss with
  | psNone =>
    obtain ⟨rest, h⟩ := initCore_registers e (normalizeComm comm) [] []
    exact ⟨[], rest, h, by simp⟩
  | psSets l =>
    obtain ⟨rest, h⟩ := initCore_registers e (normalizeComm comm) l []
    exact ⟨[], rest, h, by simp⟩
  | psStr s =>
    have hd : pyLower s = "dynamic" := hps s rfl
    obtain ⟨rest, h⟩ := initCore_registers e (normalizeComm comm) []
      [Action.setEnvDynamicProcessSets]
    refine ⟨[Action.setEnvDynamicProcessSets], rest, ?_, by simp⟩
    simpa [init, hd] using h

/-- Witness for C9: even a failing `init` (handle-bearing `comm` on an
engine without native MPI controller support) has registered the exit hook
with nothing before it. -/
theorem init_registers_exit_shutdown_witness :
    ∃ pre rest,
      (init egNoMpi (CommArg.list [CommElem.comm 4]) ProcessSetsArg.psNone).1
        = pre ++ Action.atexitRegisterShutdown :: rest ∧
      ∀ a ∈ pre, a = Action.setEnvDynamicProcessSets :=
  init_registers_exit_shutdown egNoMpi (CommArg.list [CommElem.comm 4])
    ProcessSetsArg.psNone (fun _ hs => ProcessSetsArg.noConfusion hs)

/-- Claim C7: calling `init` with `process_sets` a string whose `lower()`
is `"dynamic"` first sets the `HOROVOD_DYNAMIC_PROCESS_SETS=1` environment
variable — before the exit-hook registration and before every engine call —
and any `horovod_init` handshake performed carries empty process-set arrays
and a zero set count. -/
theorem init_dynamic_mode_order (e : Engine) (comm : CommArg) (s : String)
    (hd : pyLower s = "dynamic") :
    ∃ rest, (init e comm (ProcessSetsArg.psStr s)).1
        = Action.setEnvDynamicProcessSets ::
            Action.atexitRegisterShutdown :: rest ∧
      ∀ cr nr pr ps np,
        Action.engine (EngineCall.init cr nr pr ps np) ∈ rest →
          pr = [] ∧ ps = [] ∧ np = 0 := by
  obtain ⟨rest, h1, h2⟩ := initCore_dynamic_zero_sets e (normalizeComm comm)
    [Action.setEnvDynamicProcessSets]
  refine ⟨rest, ?_, h2⟩
  simpa [init, hd] using h1

/-- Witness for C7: `init` with `process_sets="DYNAMIC"` on a 3-worker
engine sets the environment variable first and passes zero process sets. -/
theorem init_dynamic_mode_order_witness :
    ∃ rest,
      (init egEngine CommArg.cNone (ProcessSetsArg.psStr "DYNAMIC")).1
        = Action.setEnvDynamicProcessSets ::
            Action.atexitRegisterShutdown :: rest ∧
      ∀ cr nr pr ps np,
        Action.engine (EngineCall.init cr nr pr ps np) ∈ rest →
          pr = [] ∧ ps = [] ∧ np = 0 :=
  init_dynamic_mode_order egEngine CommArg.cNone "DYNAMIC" (by decide)

/-- Counterexample to claim C1 as stated: for
`process_sets = [[0],[1,2],[2,1,0],[0]]` the handshake receives the
flattened arrays of ALL four declared entries — the third and fourth
entries, although membership-duplicates, are not dropped from the arrays
before the handshake: the passed size array `[1,2,3,1]` differs from the
size array `[1,2]` of the duplicate-free declaration list. -/
theorem init_no_predrop_counterexample :
    (init egEngine CommArg.cNone
        (ProcessSetsArg.psSets [[0], [1, 2], [2, 1, 0], [0]])).1
      = [Action.atexitRegisterShutdown,
         Action.engine (EngineCall.init [] 0 [0, 1, 2, 2, 1, 0, 0] [1, 2, 3, 1] 4)] ∧
    dropDuplicateSets [[0, 1, 2]] [[0], [1, 2], [2, 1, 0], [0]]
      = [[0], [1, 2]] ∧
    ([1, 2, 3, 1] : List Nat)
      ≠ ([[0], [1, 2]] : List (List Int)).map List.length := by
  refine ⟨rfl, rfl, by decide⟩

/-- Claim C1 (amended): `init` flattens the `process_sets` entries into
parallel rank/size arrays in declaration order and passes all of them to
the engine handshake, membership-duplicates included; the engine itself
(modelled from the spec, the native registration code is not under `src/`)
drops each entry whose membership set equals that of an earlier entry (the
global set included), so a 3-worker job declaring `[[0],[1,2],[2,1,0],[0]]`
ends with registry `{0: [0,1,2], 1: [0], 2: [1,2]}`. -/
theorem init_flattens_engine_drops_duplicates (e : Engine)
    (pss : List (List Int)) :
    (init e CommArg.cNone (ProcessSetsArg.psSets pss)).1
      = [Action.atexitRegisterShutdown,
         Action.engine (EngineCall.init [] 0 pss.flatten (pss.map List.length)
           (pss.map List.length).length)] ∧
    engineInitialRegistry [0, 1, 2] [[0], [1, 2], [2, 1, 0], [0]]
      = [(0, [0, 1, 2]), (1, [0]), (2, [1, 2])] :=
  ⟨rfl, by decide⟩

/-- Witness for C1 (amended): a concrete instance of the flattening — both
declared entries of `[[0],[1,2]]` reach the handshake in declaration
order. -/
theorem init_flattens_engine_drops_duplicates_witness :
    (init egEngine CommArg.cNone (ProcessSetsArg.psSets [[0], [1, 2]])).1
      = [Action.atexitRegisterShutdown,
         Action.engine (EngineCall.init [] 0 [0, 1, 2] [1, 2] 2)] ∧
    engineInitialRegistry [0, 1, 2] [[0], [1, 2], [2, 1, 0], [0]]
      = [(0, [0, 1, 2]), (1, [0]), (2, [1, 2])] :=
  init_flattens_engine_drops_duplicates egEngine [[0], [1, 2]]

/-- Counterexample to claim C6 as stated: a `comm` list mixing an integer
and a communicator handle, on an engine lacking native MPI controller
support, makes `init` fail with `UnsupportedController` — not with
`ConfigurationError` as the claim requires for every mixed list. -/
theorem init_mixed_comm_counterexample :
    (init egNoMpi (CommArg.list [CommElem.int 0, CommElem.comm 7])
        ProcessSetsArg.psNone).2
      = Except.error HvdError.UnsupportedController ∧
    ∀ msg,
      (init egNoMpi (CommArg.list [CommElem.int 0, CommElem.comm 7])
          ProcessSetsArg.psNone).2
        ≠ Except.error (HvdError.ConfigurationError msg) := by
  refine ⟨rfl, ?_⟩
  intro msg h
  exact HvdError.noConfusion (Except.error.inj h)

/-- Claim C6 (amended): for a `comm` list mixing rank integers and
communicator handles, `init` fails with `ConfigurationError` carrying the
message that names the expected argument shapes — provided the engine has
native MPI controller support, because the support check runs first: any
handle-bearing `comm` list on an engine lacking that support fails with
`UnsupportedController`. -/
theorem init_comm_validation_order (e : Engine) (cs : List CommElem) :
    (cs.any isIntElem = true → cs.any isCommElem = true → e.mpi_built = true →
      (init e (CommArg.list cs) ProcessSetsArg.psNone).2
        = Except.error (HvdError.ConfigurationError invalidCommTypeMsg)) ∧
    (cs.all isIntElem = false → e.mpi_built = false →
      (init e (CommArg.list cs) ProcessSetsArg.psNone).2
        = Except.error HvdError.UnsupportedController) := by
  constructor
  · intro hint hcomm hm
    obtain ⟨x, hx, hxc⟩ := List.any_eq_true.mp hcomm
    obtain ⟨y, hy, hyi⟩ := List.any_eq_true.mp hint
    have hne : cs ≠ [] := by rintro rfl; simp at hx
    have hallint : cs.all isIntElem = false := by
      rw [Bool.eq_false_iff]
      intro hall
      have := List.all_eq_true.mp hall x hx
      rw [not_int_of_comm x hxc] at this
      cases this
    have hallcomm : cs.all isCommElem = false := by
      rw [Bool.eq_false_iff]
      intro hall
      have := List.all_eq_true.mp hall y hy
      rw [not_comm_of_int y hyi] at this
      cases this
    have hcond : (cs.length == 0 || cs.all isIntElem) = false := by
      simp [hallint, List.length_eq_zero, hne]
    simp [init, initCore, normalizeComm, hcond, hm, hallcomm]
  · intro hallint hm
    have hne : cs ≠ [] := by
      rintro rfl
      simp at hallint
    have hcond : (cs.length == 0 || cs.all isIntElem) = false := by
      simp [hallint, List.length_eq_zero, hne]
    simp [init, initCore, normalizeComm, hcond, hm]

/-- Witness for C6: a mixed list on an MPI-capable engine fails with
`ConfigurationError` naming the expected shapes. -/
theorem init_comm_validation_order_witness :
    (init egEngine (CommArg.list [CommElem.int 0, CommElem.comm 7])
        ProcessSetsArg.psNone).2
      = Except.error (HvdError.ConfigurationError invalidCommTypeMsg) :=
  (init_comm_validation_order egEngine [CommElem.int 0, CommElem.comm 7]).1
    rfl rfl rfl

end Horovod
